import Mathlib

/-!
Verification of the InstagramOSINT repository (src/InstagramOSINT.py and
src/main.py) against its natural-language specification.

The two Python files contain two near-identical copies of the same
fetch-parse-normalize pipeline.  The embedding below follows
src/main.py for the profile parser and normalizer (the copy in
src/InstagramOSINT.py is line-for-line the same logic, differing only in
the capitalization of the produced display keys), src/InstagramOSINT.py
for scrape_posts and download_media, and src/main.py for
_create_output_directory, _download_content and _download_posts.

JSON values are modelled by the inductive JVal; calls to json.loads on
untrusted text are modelled by JsonText, an abstract text that either
represents a well-formed JSON value or is malformed.  Python dictionary
and attribute semantics (dict.get with default, item access, truthiness,
str()) are modelled by pyGetD, pyItem, pyTruthy and pyStr; operations
that can raise in Python return Except PyExn.
-/

/-- Exceptions raised by the modelled Python operations. -/
inductive PyExn where
  | attributeError
  | keyError
  | indexError
  | typeError
  | jsonDecodeError
deriving DecidableEq

/-- JSON-like values, as produced by json.loads. -/
inductive JVal where
  | jnull
  | jbool (b : Bool)
  | jnum (n : Int)
  | jstr (s : String)
  | jarr (elems : List JVal)
  | jobj (fields : List (String × JVal))

/-- Python truthiness of a JSON value: None, False, 0, empty string,
empty list and empty dict are falsy. -/
def pyTruthy : JVal → Bool
  | .jnull => false
  | .jbool b => b
  | .jnum n => n != 0
  | .jstr s => !s.isEmpty
  | .jarr l => !l.isEmpty
  | .jobj o => !o.isEmpty

/-- First binding of a key in an association list, with a default.
Models dict.get(key, default) on a dictionary value. -/
def dLookup (o : List (String × JVal)) (k : String) (d : JVal) : JVal :=
  match o with
  | [] => d
  | (k1, v) :: rest => if k1 = k then v else dLookup rest k d

/-- Models v.get(k, d): succeeds on a dictionary, raises AttributeError
on any other value (Python .get is only defined on dict). -/
def pyGetD (v : JVal) (k : String) (d : JVal) : Except PyExn JVal :=
  match v with
  | .jobj o => .ok (dLookup o k d)
  | _ => .error .attributeError

/-- Models v[k] item access on a dictionary: KeyError when the key is
absent, TypeError when v is not a dictionary. -/
def pyItem (v : JVal) (k : String) : Except PyExn JVal :=
  match v with
  | .jobj o =>
    match o.find? (fun p => p.1 = k) with
    | some p => .ok p.2
    | none => .error .keyError
  | _ => .error .typeError

/-- Models v[i] positional indexing on a list: IndexError when the index
is out of range, TypeError when v is not a list. -/
def pyIndex (v : JVal) (i : Nat) : Except PyExn JVal :=
  match v with
  | .jarr l =>
    match l.get? i with
    | some x => .ok x
    | none => .error .indexError
  | _ => .error .typeError

/-- Models Python str() on a JSON value.  The rendering of containers is
abbreviated; no claim depends on it. -/
def pyStr : JVal → String
  | .jnull => "None"
  | .jbool true => "True"
  | .jbool false => "False"
  | .jnum n => Int.repr n
  | .jstr s => s
  | .jarr _ => "<list>"
  | .jobj _ => "<dict>"

/-- Models Python str.split() with no argument: split on runs of
whitespace, dropping empty pieces.  acc holds the current word reversed. -/
def splitWsAux : List Char → List Char → List String
  | [], acc => if acc.isEmpty then [] else [String.mk acc.reverse]
  | c :: cs, acc =>
    if c.isWhitespace then
      if acc.isEmpty then splitWsAux cs [] else String.mk acc.reverse :: splitWsAux cs []
    else splitWsAux cs (c :: acc)

/-- Python str.split() on whitespace. -/
def pySplit (s : String) : List String := splitWsAux s.data []

/-- Abstract untrusted text handed to json.loads: either it denotes a
well-formed JSON value or it is malformed. -/
inductive JsonText where
  | valid (v : JVal)
  | malformed
deriving Inhabited

/-- Models json.loads: returns the denoted value, or raises
JSONDecodeError on malformed text. -/
def jsonLoads : JsonText → Except PyExn JVal
  | .valid v => .ok v
  | .malformed => .error .jsonDecodeError

/-- Models the sub-expression str(user_data.get(key, dict()).get(count, NA))
used for the snapshot fallback of the followers, following and posts
fields (src/main.py lines 197-199, src/InstagramOSINT.py lines 164-166). -/
def snapshotCount (userData : JVal) (key : String) : Except PyExn String := do
  let e ← pyGetD userData key (.jobj [])
  let c ← pyGetD e "count" (.jstr "N/A")
  pure (pyStr c)

/-- The profile_name expression of src/main.py line 195: the JSON-LD
name (default empty) when the parsed JSON-LD value is truthy, else the
snapshot full_name (default empty); only the taken branch is
evaluated. -/
def nameStep (description userData : JVal) : Except PyExn JVal :=
  if pyTruthy description then pyGetD description "name" (.jstr "")
  else pyGetD userData "full_name" (.jstr "")

/-- The url expression of src/main.py line 196: the @id of the JSON-LD
mainEntityofPage entry (note the lower-case o, exactly as the source
spells the key) when the JSON-LD value is truthy, else the profile URL
constructed from the username. -/
def urlStep (description : JVal) (username : String) : Except PyExn JVal :=
  if pyTruthy description then do
    let m ← pyGetD description "mainEntityofPage" (.jobj [])
    pyGetD m "@id" (.jstr "")
  else pure (JVal.jstr ("https://www.instagram.com/" ++ username ++ "/"))

/-- The count expressions of src/main.py lines 197-199: meta token at
the fixed index when the token sequence is long enough, else the
snapshot count rendered through str. -/
def countStep (text : List String) (idx : Nat) (userData : JVal) (key : String) :
    Except PyExn JVal :=
  if idx < text.length then pure (JVal.jstr (text.getD idx ""))
  else do
    let s ← snapshotCount userData key
    pure (JVal.jstr s)

/-- The profile-data dictionary construction of src/main.py lines
193-215 (the dictionary in src/InstagramOSINT.py lines 160-182 is the
same expression with capitalized keys).  text is the whitespace-split
content of the og:description meta tag, description the parsed JSON-LD
value (an empty dict when the block is absent), userData the user node
of the snapshot.  Values are computed in Python dictionary-literal
order; any raising sub-expression aborts the construction. -/
def buildProfileData (text : List String) (description userData : JVal)
    (username nowIso : String) : Except PyExn (List (String × JVal)) := do
  let uname ← pyGetD userData "username" .jnull
  let profileName ← nameStep description userData
  let url ← urlStep description username
  let followers ← countStep text 0 userData "edge_followed_by"
  let following ← countStep text 2 userData "edge_follow"
  let posts ← countStep text 4 userData "edge_owner_to_timeline_media"
  let bio ← pyGetD userData "biography" (.jstr "")
  let picStd ← pyGetD userData "profile_pic_url" (.jstr "")
  let pic ← pyGetD userData "profile_pic_url_hd" picStd
  let isBusiness ← pyGetD userData "is_business_account" (.jbool false)
  let fbPage ← pyGetD userData "connected_fb_page" .jnull
  let externalUrl ← pyGetD userData "external_url" (.jstr "")
  let joinedRecently ← pyGetD userData "is_joined_recently" (.jbool false)
  let businessCategory ← pyGetD userData "business_category_name" (.jstr "")
  let isPriv ← pyGetD userData "is_private" (.jbool false)
  let isVerified ← pyGetD userData "is_verified" (.jbool false)
  let hasGuides ← pyGetD userData "has_guides" (.jbool false)
  let hasClips ← pyGetD userData "has_clips" (.jbool false)
  let hasAr ← pyGetD userData "has_ar_effects" (.jbool false)
  let hasChannel ← pyGetD userData "has_channel" (.jbool false)
  let highlight ← pyGetD userData "highlight_reel_count" (.jnum 0)
  pure
    [("username", uname),
     ("profile_name", profileName),
     ("url", url),
     ("followers", followers),
     ("following", following),
     ("posts", posts),
     ("bio", bio),
     ("profile_pic_url", pic),
     ("is_business_account", isBusiness),
     ("connected_to_facebook", fbPage),
     ("external_url", externalUrl),
     ("joined_recently", joinedRecently),
     ("business_category", businessCategory),
     ("is_private", isPriv),
     ("is_verified", isVerified),
     ("has_guides", hasGuides),
     ("has_clips", hasClips),
     ("has_ar_effects", hasAr),
     ("has_channel", hasChannel),
     ("highlight_reel_count", highlight),
     ("scraped_timestamp", JVal.jstr nowIso)]

/-- True when the first list is an initial segment of the second. -/
def leadsWith : List Char → List Char → Bool
  | [], _ => true
  | _ :: _, [] => false
  | p :: ps, c :: cs => p == c && leadsWith ps cs

/-- True when pat occurs contiguously inside the second list. -/
def containsSeq (pat : List Char) : List Char → Bool
  | [] => leadsWith pat []
  | c :: cs => leadsWith pat (c :: cs) || containsSeq pat cs

/-- The snapshot assignment marker searched for in the inline scripts. -/
def sharedDataMarker : String := "window._sharedData"

/-- Models the Python condition script.string and marker in script.string
of src/main.py line 179 (src/InstagramOSINT.py line 146): an absent or
empty string is falsy and never matches; otherwise substring search. -/
def containsMarker (s : String) : Bool := containsSeq sharedDataMarker.data s.data

/-- One inline text/javascript script of the page: its string content,
and the JSON literal isolated from its assignment statement by
strip().split, rstrip and handed to json.loads (src/main.py line 187).
A script with no assignment or malformed JSON carries malformed. -/
structure Script where
  content : String
  payload : JsonText

/-- A fetched page after BeautifulSoup location of the three embedded
data sources: content of the first og:description meta tag (none when
find_all returns nothing), the optional JSON-LD block text, and the
inline scripts. -/
structure Page where
  ogDescription : Option String
  ldJson : Option JsonText
  scripts : List Script

/-- The distinct failure points of profile parsing (src/main.py lines
169-221).  In Python each is a distinct raised exception caught by the
same handler, which returns False and leaves profile_data empty. -/
inductive ParseErr where
  | missingSummary
  | invalidJsonLd
  | missingSnapshot
  | invalidSnapshot
  | missingUserNode
  | buildError
deriving DecidableEq

/-- The fixed navigation entry_data, ProfilePage, index 0, graphql, user
into the snapshot (src/main.py line 190). -/
def navUser (m : JVal) : Except PyExn JVal := do
  let a ← pyItem m "entry_data"
  let b ← pyItem a "ProfilePage"
  let c ← pyIndex b 0
  let d ← pyItem c "graphql"
  pyItem d "user"

/-- The fetch-parse-normalize step of src/main.py lines 154-221
(_fetch_profile_data; scrape_profile in src/InstagramOSINT.py lines
115-189 is the same logic).  On success the produced profile dictionary
is returned; on failure the typed error names the raising site and the
profile data remains empty. -/
def fetchProfileData (page : Page) (username nowIso : String) :
    Except ParseErr (List (String × JVal)) := do
  let content ← match page.ogDescription with
    | none => throw ParseErr.missingSummary
    | some c => pure c
  let text := pySplit content
  let description ← match page.ldJson with
    | none => pure (JVal.jobj [])
    | some jt =>
      match jsonLoads jt with
      | .ok v => pure v
      | .error _ => throw ParseErr.invalidJsonLd
  let script ← match page.scripts.find? (fun sc => containsMarker sc.content) with
    | none => throw ParseErr.missingSnapshot
    | some sc => pure sc
  let profileMeta ← match jsonLoads script.payload with
    | .ok v => pure v
    | .error _ => throw ParseErr.invalidSnapshot
  let userData ← match navUser profileMeta with
    | .ok u => pure u
    | .error _ => throw ParseErr.missingUserNode
  match buildProfileData text description userData username nowIso with
  | .ok d => pure d
  | .error _ => throw ParseErr.buildError

/-- Models datetime.fromtimestamp(t).isoformat().  The calendar
rendering is abstracted to the decimal timestamp, since no claim
depends on the rendered form; a non-numeric argument raises. -/
def isoFromTimestamp : JVal → Except PyExn String
  | .jnum n => .ok (Int.repr n)
  | _ => .error .typeError

/-- The caption extraction chain of src/InstagramOSINT.py line 219 and
src/main.py line 269: node.get edge_media_to_caption with empty-dict
default, .get edges with a one-empty-dict-list default, positional
index 0, .get node, .get text with empty-string default. -/
def captionOf (node : JVal) : Except PyExn JVal := do
  let a ← pyGetD node "edge_media_to_caption" (.jobj [])
  let b ← pyGetD a "edges" (.jarr [.jobj []])
  let c ← pyIndex b 0
  let d ← pyGetD c "node" (.jobj [])
  pyGetD d "text" (.jstr "")

/-- One post record of src/InstagramOSINT.py lines 214-234: the key is
str of the node id (the dictionary key and the later filename), the
value the field dictionary in source order.  taken_at_timestamp,
is_video and shortcode are looked up once here though the source
repeats the identical side-effect-free .get. -/
def postEntry (post : JVal) : Except PyExn (String × List (String × JVal)) := do
  let node ← pyItem post "node"
  let pid ← pyItem node "id"
  let caption ← captionOf node
  let commentsBlock ← pyGetD node "edge_media_to_comment" (.jobj [])
  let comments ← pyGetD commentsBlock "count" (.jnum 0)
  let commentsDisabled ← pyGetD node "comments_disabled" (.jbool false)
  let ts ← pyGetD node "taken_at_timestamp" (.jnum 0)
  let date ← isoFromTimestamp ts
  let likesBlock ← pyGetD node "edge_liked_by" (.jobj [])
  let likes ← pyGetD likesBlock "count" (.jnum 0)
  let location ← pyGetD node "location" (.jobj [])
  let accCaption ← pyGetD node "accessibility_caption" (.jstr "")
  let isVideo ← pyGetD node "is_video" (.jbool false)
  let videoViews ←
    if pyTruthy isVideo then pyGetD node "video_view_count" (.jnum 0)
    else pure JVal.jnull
  let shortcode ← pyGetD node "shortcode" (.jstr "")
  let dims ← pyGetD node "dimensions" (.jobj [])
  let displayUrl ← pyGetD node "display_url" (.jstr "")
  let thumbs ← pyGetD node "thumbnail_resources" (.jarr [])
  pure (pyStr pid,
    [("Caption", caption),
     ("Comments Count", comments),
     ("Comments Disabled", commentsDisabled),
     ("Timestamp", ts),
     ("Date", JVal.jstr date),
     ("Likes Count", likes),
     ("Location", location),
     ("Accessibility Caption", accCaption),
     ("Is Video", isVideo),
     ("Video Views", videoViews),
     ("Shortcode", shortcode),
     ("Dimensions", dims),
     ("Display URL", displayUrl),
     ("Thumbnail Resources", thumbs),
     ("Post URL", JVal.jstr ("https://www.instagram.com/p/" ++ pyStr shortcode ++ "/"))])

/-- Navigation to the post edges list (src/InstagramOSINT.py lines
211-212): the user node, then edge_owner_to_timeline_media, then edges;
slicing a non-list raises. -/
def navEdges (m : JVal) : Except PyExn (List JVal) := do
  let u ← navUser m
  let t ← pyItem u "edge_owner_to_timeline_media"
  let e ← pyItem t "edges"
  match e with
  | .jarr l => pure l
  | _ => .error .typeError

/-- scrape_posts of src/InstagramOSINT.py lines 191-241: refuses when
profile data is empty or the profile is private (Is Private defaults to
True); otherwise maps the first limit edges through postEntry; any
exception, including one in the middle of the loop, is caught and
yields none with the partial dictionary discarded. -/
def scrapePosts (profileData : List (String × JVal)) (profileMeta : JVal)
    (limit : Nat) : Option (List (String × List (String × JVal))) :=
  if profileData.isEmpty then none
  else if pyTruthy (dLookup profileData "Is Private" (.jbool true)) then none
  else
    match (do
      let edges ← navEdges profileMeta
      (edges.take limit).mapM postEntry : Except PyExn _) with
    | .ok posts => some posts
    | .error _ => none

/-- download_media of src/InstagramOSINT.py lines 243-303.  fetch tells
whether _make_request returns a response for a given URL value; the
second component lists the files written, in order.  Directory creation
and write errors are not modelled.  Note the profile picture is
downloaded before the privacy check, which only guards the posts. -/
def downloadMedia (profileData : List (String × JVal)) (profileMeta : JVal)
    (fetch : JVal → Bool) (username : String) (outputDir : Option String)
    (limit : Nat) : Bool × List String :=
  if profileData.isEmpty then (false, [])
  else
    let dir := outputDir.getD username
    let picUrl := dLookup profileData "Profile Picture URL" .jnull
    let picFiles :=
      if pyTruthy picUrl then
        if fetch picUrl then [dir ++ "/" ++ username ++ "_profile_pic.jpg"] else []
      else []
    let postFiles :=
      if !pyTruthy (dLookup profileData "Is Private" (.jbool true)) then
        match scrapePosts profileData profileMeta limit with
        | some posts =>
          if posts.isEmpty then []
          else
            (dir ++ "/posts/posts_metadata.json") ::
              posts.foldr (fun p acc =>
                let mediaUrl := dLookup p.2 "Display URL" .jnull
                (if pyTruthy mediaUrl then
                  if fetch mediaUrl then
                    [dir ++ "/posts/" ++ p.1 ++ "." ++
                      (if pyTruthy (dLookup p.2 "Is Video" .jnull) then "mp4" else "jpg")]
                  else []
                 else []) ++ acc) []
        | none => []
      else []
    (true, picFiles ++ postFiles)

/-- One post record of src/main.py lines 262-277 (_download_posts). -/
def mainPostEntry (post : JVal) : Except PyExn (String × List (String × JVal)) := do
  let node ← pyItem post "node"
  let pid ← pyItem node "id"
  let caption ← captionOf node
  let commentsBlock ← pyGetD node "edge_media_to_comment" (.jobj [])
  let comments ← pyGetD commentsBlock "count" (.jnum 0)
  let likesBlock ← pyGetD node "edge_liked_by" (.jobj [])
  let likes ← pyGetD likesBlock "count" (.jnum 0)
  let ts ← pyGetD node "taken_at_timestamp" (.jnum 0)
  let isVideo ← pyGetD node "is_video" (.jbool false)
  let shortcode ← pyGetD node "shortcode" (.jstr "")
  let displayUrl ← pyGetD node "display_url" (.jstr "")
  pure (pyStr pid,
    [("id", pid),
     ("caption", caption),
     ("comments_count", comments),
     ("likes_count", likes),
     ("timestamp", ts),
     ("is_video", isVideo),
     ("shortcode", shortcode),
     ("display_url", displayUrl)])

/-- The per-post loop of src/main.py lines 262-294.  Building a post
record can raise (for example in captionOf); that exception escapes to
the outer handler, so the loop stops there: files already written are
kept, the Bool records whether the loop completed (and hence whether
the metadata file is written afterwards).  The per-item download
try/except only skips the single file on a failed fetch. -/
def mainPostsLoop (fetch : JVal → Bool) (dir : String) :
    List JVal → List String × Bool
  | [] => ([], true)
  | post :: rest =>
    match (do
      let entry ← mainPostEntry post
      let node ← pyItem post "node"
      let mediaUrl ← pyGetD node "display_url" .jnull
      pure (entry, mediaUrl) : Except PyExn _) with
    | .error _ => ([], false)
    | .ok (entry, mediaUrl) =>
      let files :=
        if pyTruthy mediaUrl then
          if fetch mediaUrl then
            [dir ++ "/posts/" ++ entry.1 ++ "." ++
              (if pyTruthy (dLookup entry.2 "is_video" .jnull) then "mp4" else "jpg")]
          else []
        else []
      let (fs, completed) := mainPostsLoop fetch dir rest
      (files ++ fs, completed)

/-- download of recent posts, src/main.py lines 251-303
(_download_posts): navigate to the edges (failure is caught, nothing
written), run the loop on the first limit edges, and write the metadata
file only when the loop completes without an exception. -/
def mainDownloadPosts (profileMeta : JVal) (fetch : JVal → Bool)
    (dir : String) (limit : Nat) : List String :=
  match navEdges profileMeta with
  | .error _ => []
  | .ok edges =>
    let (fs, completed) := mainPostsLoop fetch dir (edges.take limit)
    if completed then fs ++ [dir ++ "/posts/posts_metadata.json"] else fs

/-- _download_profile_picture of src/main.py lines 235-249. -/
def mainDownloadProfilePic (profileData : List (String × JVal))
    (fetch : JVal → Bool) (dir username : String) : List String :=
  let picUrl := dLookup profileData "profile_pic_url" .jnull
  if !pyTruthy picUrl then []
  else if fetch picUrl then [dir ++ "/" ++ username ++ "_profile_pic.jpg"] else []

/-- _download_content of src/main.py lines 223-233: when is_private
(default True) is truthy it returns at once, writing nothing; otherwise
profile picture then posts. -/
def downloadContent (profileData : List (String × JVal)) (profileMeta : JVal)
    (fetch : JVal → Bool) (dir username : String) (limit : Nat) : List String :=
  if pyTruthy (dLookup profileData "is_private" (.jbool true)) then []
  else
    mainDownloadProfilePic profileData fetch dir username ++
      mainDownloadPosts profileMeta fetch dir limit

/-- Result of one _make_request call tree: the index of the attempt
whose response is returned (none when exhausted), the number of
attempts made, and the backoff sleeps in order. -/
structure FetchTrace where
  result : Option Nat
  attempts : Nat
  sleeps : List Nat
deriving DecidableEq

/-- _make_request of src/InstagramOSINT.py lines 83-104 (src/main.py
lines 97-118 is identical with max_retries fixed to 3).  outcome k
tells whether the attempt with retry_count = k succeeds; on a failure
with retry_count < maxRetries the code sleeps 2 ^ retry_count and
recurses with retry_count + 1, otherwise it returns None.  The
_rate_limit call at the head of every attempt is modelled separately
by issueTimes. -/
def makeRequest (outcome : Nat → Bool) (maxRetries retryCount : Nat) : FetchTrace :=
  if outcome retryCount then ⟨some retryCount, 1, []⟩
  else if h : retryCount < maxRetries then
    let t := makeRequest outcome maxRetries (retryCount + 1)
    ⟨t.result, t.attempts + 1, 2 ^ retryCount :: t.sleeps⟩
  else ⟨none, 1, []⟩
termination_by maxRetries - retryCount
decreasing_by omega

/-- The default max_retries of src/InstagramOSINT.py line 31, and the
hard-coded retry bound of src/main.py line 113. -/
def maxRetriesDefault : Nat := 3

/-- The minimum spacing between requests, src/main.py line 70 and
src/InstagramOSINT.py line 60. -/
def minRequestInterval : Nat := 2

/-- _rate_limit of src/main.py lines 90-95: given the recorded time of
the last request and the current time, sleep the remainder of the
interval when the elapsed time is short, and return the new
last_request_time, which is the moment the request is issued. -/
def rateLimit (interval last now : Nat) : Nat :=
  now + (if now - last < interval then interval - (now - last) else 0)

/-- Issue times of a sequence of requests through one _rate_limit
state.  Each entry of gaps is the time elapsing between recording the
previous issue time and the next call of _rate_limit (request duration,
backoff sleeps, idle time); every attempt of a retry chain contributes
one entry, since _make_request calls _rate_limit first on every
attempt. -/
def issueTimes (interval last : Nat) : List Nat → List Nat
  | [] => []
  | g :: gs =>
    let t := rateLimit interval last (last + g)
    t :: issueTimes interval t gs

/-- An output directory path: the initial candidate baseDir/username,
or the collision-avoiding baseDir/username_k. -/
inductive OutPath where
  | plain (base user : String)
  | suffixed (base user : String) (k : Nat)
deriving DecidableEq

/-- The while loop of _create_output_directory (src/main.py lines
126-131), searching k = start, start+1, ... for the first suffixed path
not in the filesystem fs.  The loop terminates because fs is finite;
the explicit fuel fs.length + 1 always suffices, as proved in the
directory-allocation theorem. -/
def searchFree (fs : List OutPath) (base user : String) : Nat → Nat → Nat
  | 0, k => k
  | fuel + 1, k =>
    if OutPath.suffixed base user k ∈ fs then searchFree fs base user fuel (k + 1)
    else k

/-- _create_output_directory of src/main.py lines 120-133: try
baseDir/username, and while the candidate exists try username_1,
username_2, and so on; the chosen path is created (added to fs). -/
def createOutputDirectory (fs : List OutPath) (base user : String) :
    OutPath × List OutPath :=
  if OutPath.plain base user ∈ fs then
    let k := searchFree fs base user (fs.length + 1) 1
    (OutPath.suffixed base user k, OutPath.suffixed base user k :: fs)
  else (OutPath.plain base user, OutPath.plain base user :: fs)

/-- Projection of a field out of a profile-build result, none on error. -/
def fieldOf (r : Except PyExn (List (String × JVal))) (k : String) : Option JVal :=
  match r with
  | .ok l => some (dLookup l k .jnull)
  | .error _ => none

/-- Projection of a field out of a post-entry result, none on error. -/
def postFieldOf (r : Except PyExn (String × List (String × JVal))) (k : String) :
    Option JVal :=
  match r with
  | .ok (_, l) => some (dLookup l k (.jstr "MISSING"))
  | .error _ => none

/-- Sample snapshot user node: full_name Alice and the three counts. -/
def sampleUser : JVal :=
  .jobj [("full_name", .jstr "Alice"),
         ("edge_followed_by", .jobj [("count", .jnum 10)]),
         ("edge_follow", .jobj [("count", .jnum 20)]),
         ("edge_owner_to_timeline_media", .jobj [("count", .jnum 30)])]

/-- Sample snapshot with sampleUser at the fixed navigation path. -/
def sampleSnapshot : JVal :=
  .jobj [("entry_data",
    .jobj [("ProfilePage",
      .jarr [.jobj [("graphql", .jobj [("user", sampleUser)])]])])]

/-- An inline script carrying the snapshot assignment marker and a
well-formed snapshot payload. -/
def sampleSnapshotScript : Script :=
  ⟨"window._sharedData = x;", .valid sampleSnapshot⟩

/-- A JSON-LD value that is truthy (non-empty) but carries neither the
name key nor the mainEntityofPage key. -/
def ldWithoutName : JVal := .jobj [("headline", .jstr "x")]

/-- A page whose JSON-LD block is present but malformed, with a
well-formed meta tag and snapshot script. -/
def pageBadLd : Page :=
  ⟨some "10 Followers, 20 Following, 30 Posts", some .malformed,
   [sampleSnapshotScript]⟩

/-- A page with a meta tag, a malformed JSON-LD block, and no script
containing the snapshot marker. -/
def pageBadLdNoScript : Page := ⟨some "1 Followers,", some .malformed, []⟩

/-- A post node with a one-element caption-edges array. -/
def nodeWithCaption : JVal :=
  .jobj [("id", .jstr "p1"),
         ("edge_media_to_caption",
           .jobj [("edges", .jarr [.jobj [("node", .jobj [("text", .jstr "hello")])]])])]

/-- A post node with no caption key at all. -/
def nodeNoCaptionKey : JVal := .jobj [("id", .jstr "p2")]

/-- A post node whose caption-edges key is present with an empty array. -/
def nodeEmptyCaptionEdges : JVal :=
  .jobj [("id", .jstr "p3"),
         ("edge_media_to_caption", .jobj [("edges", .jarr [])])]

/-- A video post node with seven views. -/
def nodeVideo : JVal :=
  .jobj [("id", .jstr "v1"), ("is_video", .jbool true), ("video_view_count", .jnum 7)]

/-- Snapshot whose post edges contain a good node followed by the
empty-caption-edges node. -/
def snapshotWithEmptyCaptionEdges : JVal :=
  .jobj [("entry_data",
    .jobj [("ProfilePage",
      .jarr [.jobj [("graphql",
        .jobj [("user",
          .jobj [("edge_owner_to_timeline_media",
            .jobj [("edges",
              .jarr [.jobj [("node", nodeWithCaption)],
                     .jobj [("node", nodeEmptyCaptionEdges)]])])])])]])])]

/-- A public profile dictionary (Is Private present and false). -/
def samplePublicProfile : List (String × JVal) :=
  [("Username", .jstr "bob"), ("Is Private", .jbool false)]

/-- A private profile dictionary carrying a profile picture URL. -/
def samplePrivateProfile : List (String × JVal) :=
  [("Username", .jstr "bob"),
   ("Profile Picture URL", .jstr "http://pic"),
   ("Is Private", .jbool true)]

/-- Record produced by the normalizer for a truthy JSON-LD carrying a
name, over a snapshot user whose full_name differs. -/
def c1SampleRec : List (String × JVal) :=
  (buildProfileData [] (.jobj [("name", .jstr "Bob")])
    (.jobj [("full_name", .jstr "Alice")]) "bob" "t0").toOption.getD []

/-- Record produced by the normalizer when the JSON-LD mapping is
empty, over the same snapshot user. -/
def c1SampleRecEmptyLd : List (String × JVal) :=
  (buildProfileData [] (.jobj []) (.jobj [("full_name", .jstr "Alice")])
    "bob" "t0").toOption.getD []

/-- Record produced by the normalizer for the full six-token meta
phrase over sampleUser. -/
def c5SampleRec : List (String × JVal) :=
  (buildProfileData ["10", "Followers,", "20", "Following,", "30", "Posts"]
    (.jobj []) sampleUser "bob" "t0").toOption.getD []

/-- Record produced by the normalizer for an empty meta-token sequence
over sampleUser. -/
def c5SampleRecNoTokens : List (String × JVal) :=
  (buildProfileData [] (.jobj []) sampleUser "bob" "t0").toOption.getD []

/-! ## Helper lemmas -/

@[simp] theorem exceptPureOk {ε α : Type} (a : α) :
    (pure a : Except ε α) = Except.ok a := rfl

@[simp] theorem exceptThrowErr {ε α : Type} (e : ε) :
    (throw e : Except ε α) = Except.error e := rfl

@[simp] theorem exceptOkBind {ε α β : Type} (a : α) (f : α → Except ε β) :
    (Except.ok a >>= f) = f a := rfl

@[simp] theorem exceptErrBind {ε α β : Type} (e : ε) (f : α → Except ε β) :
    ((Except.error e : Except ε α) >>= f) = Except.error e := rfl

theorem exceptBindOk {ε α β : Type} {x : Except ε α} {f : α → Except ε β} {b : β} :
    x >>= f = .ok b ↔ ∃ a, x = .ok a ∧ f a = .ok b := by
  cases x <;> simp

@[simp] theorem pyGetD_jobj (o : List (String × JVal)) (k : String) (dflt : JVal) :
    pyGetD (.jobj o) k dflt = .ok (dLookup o k dflt) := rfl

theorem exceptBindStep {ε α β : Type} {x : Except ε α} {f : α → Except ε β} {b : β}
    (h : x >>= f = .ok b) : ∃ a, f a = .ok b := by
  rcases exceptBindOk.mp h with ⟨a, -, hf⟩
  exact ⟨a, hf⟩

theorem nameStep_truthy (d : List (String × JVal)) (hd : d ≠ []) (u : JVal) :
    nameStep (.jobj d) u = .ok (dLookup d "name" (.jstr "")) := by
  have hdt : pyTruthy (JVal.jobj d) = true := by
    cases d with
    | nil => exact absurd rfl hd
    | cons a l => rfl
  unfold nameStep
  rw [if_pos hdt]
  rfl

theorem nameStep_empty (u : JVal) :
    nameStep (.jobj []) u = pyGetD u "full_name" (.jstr "") := rfl

theorem countStep_hit (text : List String) (idx : Nat) (u : JVal) (k : String)
    (h : idx < text.length) :
    countStep text idx u k = .ok (.jstr (text.getD idx "")) := by
  unfold countStep
  rw [if_pos h]
  rfl

theorem countStep_miss_ok (text : List String) (idx : Nat) (u : JVal) (k : String)
    (v : JVal) (hn : ¬ idx < text.length) (h : countStep text idx u k = .ok v) :
    ∃ s, snapshotCount u k = .ok s ∧ v = .jstr s := by
  unfold countStep at h
  rw [if_neg hn] at h
  obtain ⟨s, hs, hp⟩ := exceptBindOk.mp h
  rw [exceptPureOk, Except.ok.injEq] at hp
  exact ⟨s, hs, hp.symm⟩

/-! ## C10: the Boolean result of download_media -/

/-- C10 (confirmed).  download_media returns True exactly when the
profile data is non-empty, however the fetch oracle behaves: even when
the profile picture download and every post download fail, the result
is True; it is False only for empty profile data, so the Boolean never
reflects download success. -/
theorem download_media_result_confirmed (pd : List (String × JVal)) (meta : JVal)
    (fetch : JVal → Bool) (u : String) (od : Option String) (lim : Nat) :
    (downloadMedia pd meta fetch u od lim).1 = !pd.isEmpty := by
  unfold downloadMedia
  by_cases h : pd.isEmpty <;> simp [h]

/-! ## C4: request pacing -/

theorem rateLimit_ge (interval t g : Nat) :
    t + interval ≤ rateLimit interval t (t + g) := by
  unfold rateLimit
  split <;> omega

theorem issueTimes_all_ge (interval : Nat) (gs : List Nat) :
    ∀ t, ∀ x ∈ issueTimes interval t gs, t + interval ≤ x := by
  induction gs with
  | nil => intro t x hx; simp [issueTimes] at hx
  | cons g gs ih =>
    intro t x hx
    simp only [issueTimes, List.mem_cons] at hx
    rcases hx with rfl | hx
    · exact rateLimit_ge interval t g
    · have h1 := rateLimit_ge interval t g
      have h2 := ih (rateLimit interval t (t + g)) x hx
      omega

/-- C4 (confirmed).  For every gap pattern between successive
_rate_limit calls of one instance, including the attempts inside a
retry chain (each attempt calls _rate_limit first and contributes one
entry), any two issued requests are at least the configured interval
apart; the configured default is 2 time units. -/
theorem rate_limit_spacing_confirmed (interval last : Nat) (gaps : List Nat) :
    List.Pairwise (fun a b => a + interval ≤ b) (issueTimes interval last gaps) ∧
    minRequestInterval = 2 := by
  refine ⟨?_, rfl⟩
  induction gaps generalizing last with
  | nil => simp [issueTimes]
  | cons g gs ih =>
    simp only [issueTimes, List.pairwise_cons]
    constructor
    · intro x hx
      exact issueTimes_all_ge interval gs _ x hx
    · exact ih _

/-! ## C3: retry schedule of _make_request -/

theorem makeRequest_succeeds (outcome : Nat → Bool) (maxR : Nat) :
    ∀ (d start N : Nat), N = start + d → N ≤ maxR → outcome N = true →
      (∀ k, start ≤ k → k < N → outcome k = false) →
      makeRequest outcome maxR start =
        ⟨some N, d + 1, (List.range' start d).map (fun k => 2 ^ k)⟩ := by
  intro d
  induction d with
  | zero =>
    intro start N hN _ hs _
    have : N = start := by omega
    subst this
    rw [makeRequest]
    simp [hs]
  | succ d ih =>
    intro start N hN hle hs hf
    have h0 : outcome start = false := hf start le_rfl (by omega)
    have hsm : start < maxR := by omega
    rw [makeRequest]
    simp only [h0, Bool.false_eq_true, if_false, hsm, dif_pos]
    rw [ih (start + 1) N (by omega) hle hs (fun k h1 h2 => hf k (by omega) h2)]
    simp [List.range'_succ]

theorem makeRequest_exhausts (outcome : Nat → Bool) (maxR : Nat) :
    ∀ (d start : Nat), maxR = start + d → (∀ k, k ≤ maxR → outcome k = false) →
      makeRequest outcome maxR start =
        ⟨none, d + 1, (List.range' start d).map (fun k => 2 ^ k)⟩ := by
  intro d
  induction d with
  | zero =>
    intro start hN hf
    have h0 : outcome start = false := hf start (by omega)
    rw [makeRequest]
    simp [h0, hN]
  | succ d ih =>
    intro start hN hf
    have h0 : outcome start = false := hf start (by omega)
    have hsm : start < maxR := by omega
    rw [makeRequest]
    simp only [h0, Bool.false_eq_true, if_false, hsm, dif_pos]
    rw [ih (start + 1) (by omega) hf]
    simp [List.range'_succ]

/-- C3 (confirmed).  When the attempts with retry_count 0 .. N-1 fail
and attempt retry_count N succeeds (N within the retry budget), the
request returns the successful response after exactly N + 1 attempts,
sleeping 2 ^ k time units before the k-th retry, retries counted from
k = 0 exactly like the retry_count of the code; and when every attempt
up to retry_count = maxRetries fails, the terminal None is produced
after exactly maxRetries + 1 attempts, with no further attempt made. -/
theorem retry_schedule_confirmed (outcome : Nat → Bool) (maxRetries N : Nat)
    (hle : N ≤ maxRetries)
    (hfail : ∀ k, k < N → outcome k = false)
    (hsucc : outcome N = true) :
    makeRequest outcome maxRetries 0 =
      ⟨some N, N + 1, (List.range N).map (fun k => 2 ^ k)⟩ ∧
    ∀ o2 : Nat → Bool, (∀ k, k ≤ maxRetries → o2 k = false) →
      makeRequest o2 maxRetries 0 =
        ⟨none, maxRetries + 1, (List.range maxRetries).map (fun k => 2 ^ k)⟩ := by
  constructor
  · rw [List.range_eq_range']
    exact makeRequest_succeeds outcome maxRetries N 0 N (by omega) hle hsucc
      (fun k _ h2 => hfail k h2)
  · intro o2 hf
    rw [List.range_eq_range']
    exact makeRequest_exhausts o2 maxRetries maxRetries 0 (by omega) hf

/-- Witness for the retry-schedule theorem: two failures then success
at retry_count 2 inside the default budget of 3 yields the response
after 3 attempts with sleeps 1 and 2; an all-failing oracle yields the
terminal failure after 4 attempts with sleeps 1, 2 and 4. -/
theorem retry_schedule_confirmed_witness :
    makeRequest (fun k => decide (2 ≤ k)) maxRetriesDefault 0 =
      ⟨some 2, 3, [1, 2]⟩ ∧
    makeRequest (fun _ => false) maxRetriesDefault 0 =
      ⟨none, 4, [1, 2, 4]⟩ := by
  have h := retry_schedule_confirmed (fun k => decide (2 ≤ k)) maxRetriesDefault 2
    (by decide) (by decide) (by decide)
  exact ⟨h.1, h.2 (fun _ => false) (fun k _ => rfl)⟩

/-! ## C9: collision-free output directory allocation -/

theorem searchFree_spec (fs : List OutPath) (b u : String) :
    ∀ (fuel k : Nat), (∃ j, j < fuel ∧ OutPath.suffixed b u (k + j) ∉ fs) →
      k ≤ searchFree fs b u fuel k ∧
      OutPath.suffixed b u (searchFree fs b u fuel k) ∉ fs ∧
      ∀ i, k ≤ i → i < searchFree fs b u fuel k → OutPath.suffixed b u i ∈ fs := by
  intro fuel
  induction fuel with
  | zero => intro k h; exact absurd h (by simp)
  | succ fuel ih =>
    intro k h
    by_cases hk : OutPath.suffixed b u k ∈ fs
    · have hrw : searchFree fs b u (fuel + 1) k = searchFree fs b u fuel (k + 1) := by
        simp [searchFree, hk]
      obtain ⟨j, hj, hnot⟩ := h
      have hj0 : j ≠ 0 := by rintro rfl; simp at hnot; exact hnot hk
      have hex : ∃ j2, j2 < fuel ∧ OutPath.suffixed b u (k + 1 + j2) ∉ fs := by
        refine ⟨j - 1, by omega, ?_⟩
        have : k + 1 + (j - 1) = k + j := by omega
        rw [this]; exact hnot
      obtain ⟨h1, h2, h3⟩ := ih (k + 1) hex
      rw [hrw]
      refine ⟨by omega, h2, ?_⟩
      intro i hi1 hi2
      rcases Nat.eq_or_lt_of_le hi1 with rfl | hi1'
      · exact hk
      · exact h3 i hi1' hi2
    · have hrw : searchFree fs b u (fuel + 1) k = k := by simp [searchFree, hk]
      rw [hrw]
      exact ⟨le_rfl, hk, fun i hi1 hi2 => absurd (lt_of_le_of_lt hi1 hi2) (lt_irrefl k)⟩

theorem exists_free_suffix (fs : List OutPath) (b u : String) (k : Nat) :
    ∃ j, j < fs.length + 1 ∧ OutPath.suffixed b u (k + j) ∉ fs := by
  by_contra hcon
  push_neg at hcon
  have hsub : ((List.range (fs.length + 1)).map
      (fun j => OutPath.suffixed b u (k + j))) ⊆ fs := by
    intro x hx
    simp only [List.mem_map, List.mem_range] at hx
    obtain ⟨j, hj, rfl⟩ := hx
    exact hcon j hj
  have hnd : ((List.range (fs.length + 1)).map
      (fun j => OutPath.suffixed b u (k + j))).Nodup := by
    refine (List.nodup_range _).map ?_
    intro j1 j2 hj
    simp only [OutPath.suffixed.injEq] at hj
    omega
  have hlen := (List.subperm_of_subset hnd hsub).length_le
  simp at hlen

/-- C9 (confirmed).  allocateDirectory returns baseDir/username when
that path is not yet present, and otherwise the first unused
baseDir/username_k for k = 1, 2, ..., adding the chosen path to the
filesystem; two successive calls for the same username on a fresh base
directory yield the distinct paths name and then name_1. -/
theorem allocate_directory_confirmed (fs : List OutPath) (b u : String) :
    (OutPath.plain b u ∉ fs →
      createOutputDirectory fs b u = (OutPath.plain b u, OutPath.plain b u :: fs)) ∧
    (OutPath.plain b u ∈ fs →
      ∃ k, 1 ≤ k ∧ OutPath.suffixed b u k ∉ fs ∧
        (∀ i, 1 ≤ i → i < k → OutPath.suffixed b u i ∈ fs) ∧
        createOutputDirectory fs b u =
          (OutPath.suffixed b u k, OutPath.suffixed b u k :: fs)) ∧
    (OutPath.plain b u ∉ fs → OutPath.suffixed b u 1 ∉ fs →
      (createOutputDirectory fs b u).1 = OutPath.plain b u ∧
      (createOutputDirectory (createOutputDirectory fs b u).2 b u).1 =
        OutPath.suffixed b u 1 ∧
      OutPath.plain b u ≠ OutPath.suffixed b u 1) := by
  refine ⟨?_, ?_, ?_⟩
  · intro h
    simp [createOutputDirectory, h]
  · intro h
    obtain ⟨h1, h2, h3⟩ := searchFree_spec fs b u (fs.length + 1) 1
      (exists_free_suffix fs b u 1)
    exact ⟨searchFree fs b u (fs.length + 1) 1, h1, h2, h3,
      by simp [createOutputDirectory, h]⟩
  · intro h h1
    have hfst : createOutputDirectory fs b u = (OutPath.plain b u, OutPath.plain b u :: fs) := by
      simp [createOutputDirectory, h]
    refine ⟨by rw [hfst], ?_, by simp⟩
    rw [hfst]
    have hmem : OutPath.plain b u ∈ OutPath.plain b u :: fs := List.mem_cons_self _ _
    have hnm1 : OutPath.suffixed b u 1 ∉ OutPath.plain b u :: fs := by
      simp only [List.mem_cons]
      rintro (hc | hc)
      · exact absurd hc (by simp)
      · exact h1 hc
    simp [createOutputDirectory, hmem, searchFree, hnm1]

/-- Witness for the directory-allocation theorem on the empty base
directory: the first call creates name, the second name_1. -/
theorem allocate_directory_confirmed_witness :
    createOutputDirectory [] "base" "bob" =
      (OutPath.plain "base" "bob", [OutPath.plain "base" "bob"]) ∧
    (createOutputDirectory
      (createOutputDirectory [] "base" "bob").2 "base" "bob").1 =
      OutPath.suffixed "base" "bob" 1 ∧
    OutPath.plain "base" "bob" ≠ OutPath.suffixed "base" "bob" 1 := by
  have h := allocate_directory_confirmed [] "base" "bob"
  have h3 := h.2.2 (by simp) (by simp)
  exact ⟨h.1 (by simp), h3.2.1, h3.2.2⟩

/-! ## C1: display-name and URL precedence -/

/-- C1 counterexample.  With a JSON-LD value that is present and truthy
but lacks the name and mainEntityofPage keys, the normalizer produces
the empty string for both the display name and the URL: it does not
fall through to the snapshot full_name (Alice) nor to the constructed
profile URL, refuting the claimed per-field fallthrough. -/
theorem jsonld_fallthrough_cex :
    pyTruthy ldWithoutName = true ∧
    fieldOf (buildProfileData [] ldWithoutName
      (.jobj [("full_name", .jstr "Alice")]) "bob" "t0") "profile_name" =
      some (.jstr "") ∧
    some (JVal.jstr "") ≠ some (JVal.jstr "Alice") ∧
    fieldOf (buildProfileData [] ldWithoutName
      (.jobj [("full_name", .jstr "Alice")]) "bob" "t0") "url" =
      some (.jstr "") ∧
    some (JVal.jstr "") ≠ some (JVal.jstr "https://www.instagram.com/bob/") := by
  refine ⟨rfl, rfl, by simp, rfl, by simp⟩

/-- C1 amended.  The fallback is decided once by the truthiness of the
whole parsed JSON-LD mapping, not per field: when the mapping is
non-empty, the display name is its name entry and the URL the @id of
its mainEntityofPage entry (the key spelled with a lower-case o as in
the code), each defaulting to the empty string when absent; only when
the mapping is empty or absent do the snapshot full_name and the
constructed profile URL apply. -/
theorem jsonld_precedence_amended (txt : List String) (d ul : List (String × JVal))
    (uname t : String) (rec : List (String × JVal))
    (h : buildProfileData txt (.jobj d) (.jobj ul) uname t = .ok rec) :
    (d ≠ [] →
      dLookup rec "profile_name" .jnull = dLookup d "name" (.jstr "") ∧
      ∃ m, dLookup d "mainEntityofPage" (.jobj []) = .jobj m ∧
        dLookup rec "url" .jnull = dLookup m "@id" (.jstr "")) ∧
    (d = [] →
      dLookup rec "profile_name" .jnull = dLookup ul "full_name" (.jstr "") ∧
      dLookup rec "url" .jnull = .jstr ("https://www.instagram.com/" ++ uname ++ "/")) := by
  unfold buildProfileData at h
  obtain ⟨u1, h⟩ := exceptBindStep h
  obtain ⟨pn, hpn, h⟩ := exceptBindOk.mp h
  obtain ⟨url, hurl, h⟩ := exceptBindOk.mp h
  obtain ⟨fw, h⟩ := exceptBindStep h
  obtain ⟨fl, h⟩ := exceptBindStep h
  obtain ⟨ps, h⟩ := exceptBindStep h
  obtain ⟨bio, h⟩ := exceptBindStep h
  obtain ⟨picStd, h⟩ := exceptBindStep h
  obtain ⟨pic, h⟩ := exceptBindStep h
  obtain ⟨isB, h⟩ := exceptBindStep h
  obtain ⟨fb, h⟩ := exceptBindStep h
  obtain ⟨ex, h⟩ := exceptBindStep h
  obtain ⟨jr, h⟩ := exceptBindStep h
  obtain ⟨bc, h⟩ := exceptBindStep h
  obtain ⟨ip, h⟩ := exceptBindStep h
  obtain ⟨iv, h⟩ := exceptBindStep h
  obtain ⟨hg, h⟩ := exceptBindStep h
  obtain ⟨hcl, h⟩ := exceptBindStep h
  obtain ⟨har, h⟩ := exceptBindStep h
  obtain ⟨hch, h⟩ := exceptBindStep h
  obtain ⟨hlc, h⟩ := exceptBindStep h
  simp only [exceptPureOk, Except.ok.injEq] at h
  subst h
  constructor
  · intro hd
    rw [nameStep_truthy d hd] at hpn
    rw [Except.ok.injEq] at hpn
    subst hpn
    have hdt : pyTruthy (JVal.jobj d) = true := by
      cases d with
      | nil => exact absurd rfl hd
      | cons a l => rfl
    unfold urlStep at hurl
    rw [if_pos hdt] at hurl
    simp only [pyGetD_jobj, exceptOkBind] at hurl
    rcases hmE : dLookup d "mainEntityofPage" (.jobj []) with _ | b | n | s | l | mo <;>
      rw [hmE] at hurl
    case jobj =>
      rw [pyGetD_jobj, Except.ok.injEq] at hurl
      subst hurl
      exact ⟨by simp [dLookup], mo, rfl, by simp [dLookup]⟩
    all_goals simp only [pyGetD] at hurl
    all_goals exact absurd hurl (by simp)
  · intro hd
    subst hd
    rw [nameStep_empty, pyGetD_jobj, Except.ok.injEq] at hpn
    subst hpn
    unfold urlStep at hurl
    rw [if_neg (by decide)] at hurl
    rw [exceptPureOk, Except.ok.injEq] at hurl
    subst hurl
    exact ⟨by simp [dLookup], by simp [dLookup]⟩

/-- Witness for the amended C1 theorem: a truthy JSON-LD with name Bob
wins over the snapshot full_name Alice, and with an empty JSON-LD
mapping the snapshot full_name and the constructed URL are used. -/
theorem jsonld_precedence_amended_witness :
    dLookup c1SampleRec "profile_name" .jnull = .jstr "Bob" ∧
    dLookup c1SampleRecEmptyLd "profile_name" .jnull = .jstr "Alice" ∧
    dLookup c1SampleRecEmptyLd "url" .jnull =
      .jstr "https://www.instagram.com/bob/" := by
  have h1 := (jsonld_precedence_amended [] [("name", JVal.jstr "Bob")]
    [("full_name", JVal.jstr "Alice")] "bob" "t0" c1SampleRec rfl).1 (by simp)
  have h2 := (jsonld_precedence_amended [] [] [("full_name", JVal.jstr "Alice")]
    "bob" "t0" c1SampleRecEmptyLd rfl).2 rfl
  exact ⟨h1.1.trans rfl, h2.1.trans rfl, h2.2⟩

/-! ## C5: meta-token extraction of the three counts -/

/-- C5 (confirmed).  For the exact six-token phrase the counts come
from token indices 0, 2 and 4 whatever the snapshot holds; for shorter
token sequences each missing index falls through to the snapshot count
of that field, rendered through str. -/
theorem meta_tokens_confirmed (n1 n2 n3 : String) (desc userData : JVal)
    (uname t : String) (rec : List (String × JVal))
    (h : buildProfileData [n1, "Followers,", n2, "Following,", n3, "Posts"]
      desc userData uname t = .ok rec) :
    (dLookup rec "followers" .jnull = .jstr n1 ∧
     dLookup rec "following" .jnull = .jstr n2 ∧
     dLookup rec "posts" .jnull = .jstr n3) ∧
    (∀ (txt : List String) (desc2 userData2 : JVal) (uname2 t2 : String)
        (rec2 : List (String × JVal)),
      buildProfileData txt desc2 userData2 uname2 t2 = .ok rec2 →
      (txt.length = 0 → ∃ s, snapshotCount userData2 "edge_followed_by" = .ok s ∧
        dLookup rec2 "followers" .jnull = .jstr s) ∧
      (txt.length ≤ 2 → ∃ s, snapshotCount userData2 "edge_follow" = .ok s ∧
        dLookup rec2 "following" .jnull = .jstr s) ∧
      (txt.length ≤ 4 → ∃ s,
        snapshotCount userData2 "edge_owner_to_timeline_media" = .ok s ∧
        dLookup rec2 "posts" .jnull = .jstr s)) := by
  constructor
  · unfold buildProfileData at h
    obtain ⟨u1, h⟩ := exceptBindStep h
    obtain ⟨pn, h⟩ := exceptBindStep h
    obtain ⟨url, h⟩ := exceptBindStep h
    obtain ⟨fw, hfw, h⟩ := exceptBindOk.mp h
    obtain ⟨fl, hfl, h⟩ := exceptBindOk.mp h
    obtain ⟨ps, hps, h⟩ := exceptBindOk.mp h
    obtain ⟨bio, h⟩ := exceptBindStep h
    obtain ⟨picStd, h⟩ := exceptBindStep h
    obtain ⟨pic, h⟩ := exceptBindStep h
    obtain ⟨isB, h⟩ := exceptBindStep h
    obtain ⟨fb, h⟩ := exceptBindStep h
    obtain ⟨ex, h⟩ := exceptBindStep h
    obtain ⟨jr, h⟩ := exceptBindStep h
    obtain ⟨bc, h⟩ := exceptBindStep h
    obtain ⟨ip, h⟩ := exceptBindStep h
    obtain ⟨iv, h⟩ := exceptBindStep h
    obtain ⟨hg, h⟩ := exceptBindStep h
    obtain ⟨hcl, h⟩ := exceptBindStep h
    obtain ⟨har, h⟩ := exceptBindStep h
    obtain ⟨hch, h⟩ := exceptBindStep h
    obtain ⟨hlc, h⟩ := exceptBindStep h
    simp only [exceptPureOk, Except.ok.injEq] at h
    subst h
    rw [countStep_hit _ _ _ _ (by simp), Except.ok.injEq] at hfw
    rw [countStep_hit _ _ _ _ (by simp), Except.ok.injEq] at hfl
    rw [countStep_hit _ _ _ _ (by simp), Except.ok.injEq] at hps
    subst hfw
    subst hfl
    subst hps
    exact ⟨by simp [dLookup], by simp [dLookup], by simp [dLookup]⟩
  · intro txt desc2 userData2 uname2 t2 rec2 h2
    unfold buildProfileData at h2
    obtain ⟨u1, h2⟩ := exceptBindStep h2
    obtain ⟨pn, h2⟩ := exceptBindStep h2
    obtain ⟨url, h2⟩ := exceptBindStep h2
    obtain ⟨fw, hfw, h2⟩ := exceptBindOk.mp h2
    obtain ⟨fl, hfl, h2⟩ := exceptBindOk.mp h2
    obtain ⟨ps, hps, h2⟩ := exceptBindOk.mp h2
    obtain ⟨bio, h2⟩ := exceptBindStep h2
    obtain ⟨picStd, h2⟩ := exceptBindStep h2
    obtain ⟨pic, h2⟩ := exceptBindStep h2
    obtain ⟨isB, h2⟩ := exceptBindStep h2
    obtain ⟨fb, h2⟩ := exceptBindStep h2
    obtain ⟨ex, h2⟩ := exceptBindStep h2
    obtain ⟨jr, h2⟩ := exceptBindStep h2
    obtain ⟨bc, h2⟩ := exceptBindStep h2
    obtain ⟨ip, h2⟩ := exceptBindStep h2
    obtain ⟨iv, h2⟩ := exceptBindStep h2
    obtain ⟨hg, h2⟩ := exceptBindStep h2
    obtain ⟨hcl, h2⟩ := exceptBindStep h2
    obtain ⟨har, h2⟩ := exceptBindStep h2
    obtain ⟨hch, h2⟩ := exceptBindStep h2
    obtain ⟨hlc, h2⟩ := exceptBindStep h2
    simp only [exceptPureOk, Except.ok.injEq] at h2
    subst h2
    refine ⟨?_, ?_, ?_⟩
    · intro hlen
      obtain ⟨s, hs, rfl⟩ := countStep_miss_ok _ _ _ _ _ (by omega) hfw
      exact ⟨s, hs, by simp [dLookup]⟩
    · intro hlen
      obtain ⟨s, hs, rfl⟩ := countStep_miss_ok _ _ _ _ _ (by omega) hfl
      exact ⟨s, hs, by simp [dLookup]⟩
    · intro hlen
      obtain ⟨s, hs, rfl⟩ := countStep_miss_ok _ _ _ _ _ (by omega) hps
      exact ⟨s, hs, by simp [dLookup]⟩

/-- Witness for the meta-token theorem: the six-token phrase yields 10,
20 and 30 from the tokens, and with no tokens the followers value comes
from the snapshot count 10 rendered through str. -/
theorem meta_tokens_confirmed_witness :
    (dLookup c5SampleRec "followers" .jnull = .jstr "10" ∧
     dLookup c5SampleRec "following" .jnull = .jstr "20" ∧
     dLookup c5SampleRec "posts" .jnull = .jstr "30") ∧
    dLookup c5SampleRecNoTokens "followers" .jnull = .jstr "10" := by
  have h := meta_tokens_confirmed "10" "20" "30" (.jobj []) sampleUser "bob" "t0"
    c5SampleRec rfl
  refine ⟨h.1, ?_⟩
  obtain ⟨s, hs, he⟩ :=
    (h.2 [] (.jobj []) sampleUser "bob" "t0" c5SampleRecNoTokens rfl).1 rfl
  have hs2 : s = "10" := by
    have h3 : (Except.ok s : Except PyExn String) = .ok "10" := hs.symm.trans rfl
    exact Except.ok.inj h3
  subst hs2
  exact he

/-! ## C2: a malformed JSON-LD block is fatal, not non-fatal -/

/-- C2 counterexample.  On a page whose JSON-LD block is present but
malformed while the meta tag and snapshot script are well formed,
parsing aborts with the JSON-LD error and produces no record; the same
page without the JSON-LD block parses successfully, so the abort is due
to the malformed block alone.  This refutes the claim that a JSON-LD
parse failure is non-fatal and yields an empty mapping. -/
theorem jsonld_invalid_fatal_cex :
    pageBadLd.ldJson = some .malformed ∧
    fetchProfileData pageBadLd "bob" "t0" = .error .invalidJsonLd ∧
    (fetchProfileData ⟨pageBadLd.ogDescription, none, pageBadLd.scripts⟩
      "bob" "t0").isOk = true := by
  exact ⟨rfl, rfl, rfl⟩

/-- C2 amended.  For every page whose meta tag is present and whose
JSON-LD block is present but not valid JSON, parsing is fatal: it
aborts with the JSON-LD parse error and no ProfileRecord is produced;
the empty mapping arises only when the block is absent. -/
theorem jsonld_invalid_fatal_amended (page : Page) (c uname t : String)
    (hmeta : page.ogDescription = some c)
    (hld : page.ldJson = some .malformed) :
    fetchProfileData page uname t = .error .invalidJsonLd := by
  unfold fetchProfileData
  rw [hmeta, hld]
  rfl

/-- Witness for the amended C2 theorem at a concrete page. -/
theorem jsonld_invalid_fatal_amended_witness :
    fetchProfileData ⟨some "x y", some .malformed, [⟨"no marker", .malformed⟩]⟩
      "w" "t" = .error .invalidJsonLd :=
  jsonld_invalid_fatal_amended _ "x y" "w" "t" rfl rfl

/-! ## C8: absent snapshot script -/

/-- C8 counterexample.  A page whose meta tag is present and whose
scripts contain no snapshot marker, but whose JSON-LD block is
malformed, fails with the JSON-LD error rather than MissingSnapshot
(yet still produces no record), refuting the universally quantified
error identity of the claim. -/
theorem missing_snapshot_cex :
    pageBadLdNoScript.ogDescription = some "1 Followers," ∧
    pageBadLdNoScript.scripts = [] ∧
    fetchProfileData pageBadLdNoScript "bob" "t0" = .error .invalidJsonLd ∧
    (Except.error ParseErr.invalidJsonLd :
      Except ParseErr (List (String × JVal))) ≠ .error .missingSnapshot := by
  refine ⟨rfl, rfl, rfl, by simp⟩

/-- C8 amended.  For every page whose meta tag is present, whose
JSON-LD block is absent or valid, and none of whose inline scripts
contains the snapshot marker, parsing fails with MissingSnapshot and no
ProfileRecord is produced (a malformed JSON-LD block instead fails
earlier with the JSON-LD parse error, still producing no record). -/
theorem missing_snapshot_amended (page : Page) (c uname t : String)
    (hmeta : page.ogDescription = some c)
    (hld : page.ldJson = none ∨ ∃ v, page.ldJson = some (.valid v))
    (hnm : ∀ sc ∈ page.scripts, containsMarker sc.content = false) :
    fetchProfileData page uname t = .error .missingSnapshot := by
  have hfind : page.scripts.find? (fun sc => containsMarker sc.content) = none := by
    rw [List.find?_eq_none]
    intro sc hsc
    simp [hnm sc hsc]
  unfold fetchProfileData
  rcases hld with hld | ⟨v, hld⟩ <;> rw [hmeta, hld] <;> rw [hfind] <;> rfl

/-- Witness for the amended C8 theorem: meta tag present, no JSON-LD
block, one marker-free script. -/
theorem missing_snapshot_amended_witness :
    fetchProfileData ⟨some "x", none, [⟨"var y = 2;", .malformed⟩]⟩ "bob" "t0" =
      .error .missingSnapshot := by
  refine missing_snapshot_amended _ "x" "bob" "t0" rfl (Or.inl rfl) ?_
  intro sc hsc
  simp only [List.mem_singleton] at hsc
  subst hsc
  rfl

/-! ## C6: caption extraction crashes on a present-but-empty edges array -/

/-- C6 (code bug).  The caption of a post node is the text of the first
caption edge when the edges array is non-empty, and the empty string
when the caption key (and with it the edges key) is absent; but a node
whose caption-edges key is present with an empty array raises
IndexError, which aborts the whole of scrape_posts (none, no records),
where the specification promises the empty-string fallback with no
crash.  videoViews behaves as claimed: populated for videos, the
explicit Python None (not zero) otherwise. -/
theorem caption_empty_edges_bug :
    captionOf nodeWithCaption = .ok (.jstr "hello") ∧
    captionOf nodeNoCaptionKey = .ok (.jstr "") ∧
    captionOf nodeEmptyCaptionEdges = .error .indexError ∧
    scrapePosts samplePublicProfile snapshotWithEmptyCaptionEdges 12 = none ∧
    postFieldOf (postEntry (.jobj [("node", nodeVideo)])) "Video Views" =
      some (.jnum 7) ∧
    postFieldOf (postEntry (.jobj [("node", nodeWithCaption)])) "Video Views" =
      some .jnull := by
  exact ⟨rfl, rfl, rfl, rfl, rfl, rfl⟩

/-! ## C7: privacy gating of the media download -/

/-- C7 counterexample.  In download_media of src/InstagramOSINT.py a
private profile with a profile picture URL still gets its profile
picture downloaded and written: the privacy flag only guards the posts,
refuting the claim that the download skips entirely. -/
theorem private_profile_pic_cex :
    pyTruthy (dLookup samplePrivateProfile "Is Private" (.jbool true)) = true ∧
    (downloadMedia samplePrivateProfile (.jobj []) (fun _ => true)
      "bob" none 12).2 = ["bob/bob_profile_pic.jpg"] ∧
    (["bob/bob_profile_pic.jpg"] : List String) ≠ [] := by
  refine ⟨rfl, rfl, by simp⟩

/-- C7 amended.  The _download_content variant of src/main.py does skip
entirely on a private profile, writing nothing; the download_media
variant of src/InstagramOSINT.py skips only the posts when the profile
is private, while the profile picture is still written whenever its URL
is truthy and its fetch succeeds. -/
theorem private_download_amended :
    (∀ (pd : List (String × JVal)) (meta : JVal) (fetch : JVal → Bool)
        (dir uname : String) (lim : Nat),
      pyTruthy (dLookup pd "is_private" (.jbool true)) = true →
      downloadContent pd meta fetch dir uname lim = []) ∧
    (∀ (pd : List (String × JVal)) (meta : JVal) (fetch : JVal → Bool)
        (uname : String) (od : Option String) (lim : Nat),
      pd ≠ [] →
      pyTruthy (dLookup pd "Is Private" (.jbool true)) = true →
      (downloadMedia pd meta fetch uname od lim).2 =
        (if pyTruthy (dLookup pd "Profile Picture URL" .jnull) then
          (if fetch (dLookup pd "Profile Picture URL" .jnull) then
            [(od.getD uname) ++ "/" ++ uname ++ "_profile_pic.jpg"] else [])
         else [])) := by
  constructor
  · intro pd meta fetch dir uname lim h
    unfold downloadContent
    simp [h]
  · intro pd meta fetch uname od lim hne hpriv
    have hpe : pd.isEmpty = false := by
      cases pd with
      | nil => exact absurd rfl hne
      | cons a l => rfl
    unfold downloadMedia
    simp [hpe, hpriv]

/-- Witness for the amended C7 theorem: a private profile writes
nothing through _download_content, and nothing through download_media
when the picture fetch fails. -/
theorem private_download_amended_witness :
    downloadContent [("is_private", .jbool true)] (.jobj [])
      (fun _ => true) "d" "bob" 12 = [] ∧
    (downloadMedia samplePrivateProfile (.jobj []) (fun _ => false)
      "bob" none 12).2 = [] := by
  have h := private_download_amended
  refine ⟨h.1 _ (.jobj []) (fun _ => true) "d" "bob" 12 rfl, ?_⟩
  have h2 := h.2 samplePrivateProfile (.jobj []) (fun _ => false) "bob" none 12
    (by simp [samplePrivateProfile]) rfl
  simpa using h2

example : pySplit "12 Followers, 3 Following, 4 Posts" =
    ["12", "Followers,", "3", "Following,", "4", "Posts"] := by rfl

example :
    buildProfileData [] (.jobj []) (.jobj [("full_name", .jstr "Alice")]) "bob" "t0" =
      .ok
        [("username", .jnull),
         ("profile_name", .jstr "Alice"),
         ("url", .jstr "https://www.instagram.com/bob/"),
         ("followers", .jstr "N/A"),
         ("following", .jstr "N/A"),
         ("posts", .jstr "N/A"),
         ("bio", .jstr ""),
         ("profile_pic_url", .jstr ""),
         ("is_business_account", .jbool false),
         ("connected_to_facebook", .jnull),
         ("external_url", .jstr ""),
         ("joined_recently", .jbool false),
         ("business_category", .jstr ""),
         ("is_private", .jbool false),
         ("is_verified", .jbool false),
         ("has_guides", .jbool false),
         ("has_clips", .jbool false),
         ("has_ar_effects", .jbool false),
         ("has_channel", .jbool false),
         ("highlight_reel_count", .jnum 0),
         ("scraped_timestamp", .jstr "t0")] := by rfl
